import Mathlib

/-!
Shallow embedding of the core utility functions of the
Mastering-JavaScript-Unit-Testing course repository (discount
calculation, input validation, a Stack data structure, an
always-failing async stub, and a date-based discount), together with
proofs of the specified properties.

The repository ships only the unit tests (`src/tests/core.test.js` and
the mocking test file); the implementation modules `src/core` and
`src/mocking` that the tests import are not part of the source tree.
Every definition below is therefore modelled from the natural-language
specification (and the behaviour pinned down by the shipped tests),
as indicated in each doc comment.

JavaScript's dynamically typed values are embedded as the sum type
`JSValue`; JavaScript numbers are modelled as rationals (the functions
involved only compare numbers and compute `price * (1 - discount)`).
Thrown errors and promise rejections are modelled with `Except`.
-/

/-- Embedding of the JavaScript values the specified functions can
receive or return: numbers (modelled as rationals), strings, booleans,
`null` and `undefined`. -/
inductive JSValue where
  | num (x : ℚ)
  | str (s : String)
  | bool (b : Bool)
  | nullV
  | undefinedV
  deriving DecidableEq, Repr

/-- Case-insensitive character list of a string, used to model
JavaScript regex tests such as `/invalid/i` on the returned messages. -/
def charsLower (s : String) : List Char := s.data.map Char.toLower

/-- `leadsWith pat l` is true when `pat` occurs at the head of `l`. -/
def leadsWith : List Char → List Char → Bool
  | [], _ => true
  | _ :: _, [] => false
  | a :: as, b :: bs => a == b && leadsWith as bs

/-- `hasSubChars pat l` is true when `pat` occurs as a contiguous
sublist of `l`. -/
def hasSubChars (pat : List Char) : List Char → Bool
  | [] => leadsWith pat []
  | l@(_ :: rest) => leadsWith pat l || hasSubChars pat rest

/-- `hasSubstrCI s pat` models the JavaScript test
`new RegExp(pat, 'i').test(s)` for a literal pattern `pat`:
case-insensitive substring containment. -/
def hasSubstrCI (s pat : String) : Bool :=
  hasSubChars (charsLower pat) (charsLower s)

/-- A coupon: an immutable code/discount pair, with discount a fraction
strictly between 0 and 1. -/
structure Coupon where
  code : String
  discount : ℚ
  deriving DecidableEq, Repr

/-- Modelled from the spec: the implementation module `src/core` is not
in the source tree.  `getCoupons` returns the fixed coupon catalog (the
function's only data source); the catalog entries `SAVE10 ↦ 0.1` and
`SAVE20 ↦ 0.2` are pinned down by the shipped tests
(`calculateDiscount(10,'SAVE10') == 9`, `calculateDiscount(10,'SAVE20') == 8`). -/
def getCoupons : List Coupon :=
  [{ code := "SAVE10", discount := 1/10 },
   { code := "SAVE20", discount := 1/5 }]

/-- Modelled from the spec: the implementation module `src/core` is not
in the source tree.  `calculateDiscount(price, code)` fails with an
"invalid price" message when price is not numeric or is negative; fails
with an "invalid code" message when code is not a string; looks up the
code in the catalog (case-sensitive exact match) — if found, returns
`price * (1 - discount)`; if not found, returns `price` unchanged. -/
def calculateDiscount (price code : JSValue) : JSValue :=
  match price with
  | JSValue.num p =>
    if p < 0 then JSValue.str "Invalid price"
    else
      match code with
      | JSValue.str c =>
        match getCoupons.find? (fun coupon => coupon.code == c) with
        | some coupon => JSValue.num (p * (1 - coupon.discount))
        | none => JSValue.num p
      | _ => JSValue.str "Invalid code"
  | _ => JSValue.str "Invalid price"

/-- Modelled from the spec: the implementation module `src/core` is not
in the source tree.  The username axis of `validateUserInput`: the
username must be a string with length in [3,255]. -/
def validUsernameAxis : JSValue → Bool
  | JSValue.str s => 3 ≤ s.length && s.length ≤ 255
  | _ => false

/-- Modelled from the spec: the implementation module `src/core` is not
in the source tree.  The age axis of `validateUserInput`: the age must
be a number in [18,100]. -/
def validAgeAxis : JSValue → Bool
  | JSValue.num a => decide (18 ≤ a) && decide (a ≤ 100)
  | _ => false

/-- Modelled from the spec: the implementation module `src/core` is not
in the source tree.  `validateUserInput(username, age)` independently
validates the two axes; produces a success message when both pass, and
otherwise a single combined error message with one clause per failing
axis ("Invalid username" and/or "Invalid age"). -/
def validateUserInput (username age : JSValue) : String :=
  let errors : List String :=
    (if validUsernameAxis username then [] else ["Invalid username"]) ++
    (if validAgeAxis age then [] else ["Invalid age"])
  if errors.isEmpty then "Validation successful"
  else String.intercalate ", " errors

/-- Modelled from the spec: the implementation module `src/core` is not
in the source tree.  `isValidUsername(username)` returns true iff the
input is a string with length in [5,15] inclusive, and false for any
non-string input. -/
def isValidUsername : JSValue → Bool
  | JSValue.str s => 5 ≤ s.length && s.length ≤ 15
  | _ => false

/-- Modelled from the spec: the implementation module `src/core` is not
in the source tree.  The per-jurisdiction minimum driving ages used by
`canDrive`; the concrete entries (16 for 'US', 17 for 'UK') are pinned
down by the shipped tests. -/
def legalDrivingAge : List (String × ℚ) :=
  [("US", 16), ("UK", 17)]

/-- Modelled from the spec: the implementation module `src/core` is not
in the source tree.  `canDrive(age, countryCode)` fails with an
"invalid country code" message for unrecognized codes; for recognized
codes it returns true iff age meets the country-specific minimum
driving age (boundary ages are eligible). -/
def canDrive (age : ℚ) (countryCode : String) : JSValue :=
  match legalDrivingAge.lookup countryCode with
  | none => JSValue.str "Invalid country code"
  | some minAge => JSValue.bool (decide (minAge ≤ age))

/-- The rejection value of a failed asynchronous operation: it carries
a `reason` field. -/
structure RejectionInfo where
  reason : String
  deriving DecidableEq, Repr

/-- Modelled from the spec: the implementation module `src/core` is not
in the source tree.  `fetchData()` is an asynchronous operation that in
this stub always fails; the promise is embedded as an `Except`, whose
error is the rejection value carrying a `reason` field matching a
"fail" pattern (success would resolve to an array of numbers). -/
def fetchData : Except RejectionInfo (List ℚ) :=
  Except.error { reason := "Operation failed" }

/-- Modelled from the spec: the implementation module `src/core` is not
in the source tree.  The Stack data structure: an ordered sequence of
elements with the top of the stack at the head of the list. -/
structure Stack (α : Type) where
  items : List α
  deriving DecidableEq, Repr

/-- `push(item)` appends to the top; always succeeds. -/
def Stack.push (s : Stack α) (item : α) : Stack α :=
  { items := item :: s.items }

/-- `size()` returns the current element count. -/
def Stack.size (s : Stack α) : Nat :=
  s.items.length

/-- `pop()` removes and returns the top item; fails with an
"empty stack" error when no items remain.  The thrown error is embedded
as the `Except.error` case, and the stack after the removal is returned
alongside the popped item. -/
def Stack.pop : Stack α → Except String (α × Stack α)
  | { items := [] } => Except.error "Stack is empty"
  | { items := x :: rest } => Except.ok (x, { items := rest })

/-- `peek()` returns the top item without removing it; fails with an
"empty stack" error when empty. -/
def Stack.peek : Stack α → Except String α
  | { items := [] } => Except.error "Stack is empty"
  | { items := x :: _ } => Except.ok x

/-- `isEmpty()` returns true iff size is zero. -/
def Stack.isEmpty (s : Stack α) : Bool :=
  s.items.isEmpty

/-- `clear()` removes all elements; always succeeds. -/
def Stack.clear (_ : Stack α) : Stack α :=
  { items := [] }

/-- Modelled from the spec: the implementation module `src/mocking` is
not in the source tree.  `getDiscount()` is determined solely by the
current system date, which is made an explicit argument here (month in
1..12 and day of month as read from the clock); it returns the fraction
0.2 on December 25 and 0 on every other day, as pinned down by the
shipped tests. -/
def getDiscount (month day : Nat) : ℚ :=
  if month = 12 && day = 25 then 1/5 else 0

/-- C1: for every numeric non-negative price and every code present in
the fixed coupon catalog (case-sensitive exact match),
`calculateDiscount(price, code)` returns `price * (1 - discount)` where
`discount` is the catalog entry for that code. -/
theorem calculateDiscount_valid_code (p : ℚ) (hp : 0 ≤ p) (c : Coupon)
    (hc : c ∈ getCoupons) :
    calculateDiscount (JSValue.num p) (JSValue.str c.code) =
      JSValue.num (p * (1 - c.discount)) := by
  have hnp : ¬ p < 0 := not_lt.mpr hp
  have hc' : c = ⟨"SAVE10", 1/10⟩ ∨ c = ⟨"SAVE20", 1/5⟩ := by
    simpa [getCoupons] using hc
  rcases hc' with h | h <;> subst h <;>
    · show calculateDiscount _ _ = _
      simp only [calculateDiscount]
      rw [if_neg hnp]
      rfl

/-- Witness for C1: applies the theorem at the catalog's two coupons at
price 10, recovering the specified values `9` and `8`. -/
theorem calculateDiscount_valid_code_witness :
    calculateDiscount (JSValue.num 10) (JSValue.str "SAVE10") = JSValue.num 9 ∧
    calculateDiscount (JSValue.num 10) (JSValue.str "SAVE20") = JSValue.num 8 := by
  constructor
  · have h := calculateDiscount_valid_code 10 (by norm_num) ⟨"SAVE10", 1/10⟩
      (by simp [getCoupons])
    rw [h]; norm_num
  · have h := calculateDiscount_valid_code 10 (by norm_num) ⟨"SAVE20", 1/5⟩
      (by simp [getCoupons])
    rw [h]; norm_num

/-- C2: for every stack and every item `x`, `push(x)` followed
immediately by `pop()` returns `x` (the most recently pushed item), and
the stack after the pop has the same size as the stack before the
push. -/
theorem stack_push_pop {α : Type} (s : Stack α) (x : α) :
    ∃ s' : Stack α, (s.push x).pop = Except.ok (x, s') ∧ s'.size = s.size :=
  ⟨s, rfl, rfl⟩

/-- Witness for C2: pushing 2 onto the one-element stack [1] and
popping returns 2 and restores the size. -/
theorem stack_push_pop_witness :
    ∃ s' : Stack ℚ, ((Stack.mk [1]).push 2).pop = Except.ok (2, s') ∧
      s'.size = (Stack.mk ([1] : List ℚ)).size :=
  stack_push_pop (Stack.mk [1]) 2

/-- C3: on a stack of size zero, both `pop()` and `peek()` fail with an
error whose message matches `/empty/i` rather than returning a default
value.  In this pure embedding the failing calls return only the error,
so the stack itself is untouched by construction. -/
theorem stack_empty_pop_peek {α : Type} (s : Stack α) (h : s.size = 0) :
    (∃ msg, s.pop = Except.error msg ∧ hasSubstrCI msg "empty" = true) ∧
    (∃ msg, s.peek = Except.error msg ∧ hasSubstrCI msg "empty" = true) := by
  obtain ⟨items⟩ := s
  cases items with
  | nil =>
    exact ⟨⟨"Stack is empty", rfl, by decide⟩, ⟨"Stack is empty", rfl, by decide⟩⟩
  | cons a l =>
    simp [Stack.size] at h

/-- Witness for C3: the freshly created empty stack (of numbers) has
size 0, and both `pop` and `peek` on it produce an "empty" error. -/
theorem stack_empty_pop_peek_witness :
    (∃ msg, (Stack.mk ([] : List ℚ)).pop = Except.error msg ∧
      hasSubstrCI msg "empty" = true) ∧
    (∃ msg, (Stack.mk ([] : List ℚ)).peek = Except.error msg ∧
      hasSubstrCI msg "empty" = true) :=
  stack_empty_pop_peek (Stack.mk []) rfl

/-- C4: when the price is not a number, or is a negative number,
`calculateDiscount` returns an "invalid price" message string matching
`/invalid/i`; when the price is a valid (non-negative) number but the
code is not a string, it returns an "invalid code" message string
matching `/invalid/i`. -/
theorem calculateDiscount_invalid_inputs (price code : JSValue) :
    (((∀ p : ℚ, price ≠ JSValue.num p) ∨
        (∃ p : ℚ, price = JSValue.num p ∧ p < 0)) →
      ∃ msg, calculateDiscount price code = JSValue.str msg ∧
        hasSubstrCI msg "invalid price" = true ∧
        hasSubstrCI msg "invalid" = true) ∧
    ((∃ p : ℚ, price = JSValue.num p ∧ 0 ≤ p) →
      (∀ s : String, code ≠ JSValue.str s) →
      ∃ msg, calculateDiscount price code = JSValue.str msg ∧
        hasSubstrCI msg "invalid code" = true ∧
        hasSubstrCI msg "invalid" = true) := by
  constructor
  · rintro (hnot | ⟨p, rfl, hneg⟩)
    · cases price with
      | num p => exact absurd rfl (hnot p)
      | str s => exact ⟨"Invalid price", rfl, by decide, by decide⟩
      | bool b => exact ⟨"Invalid price", rfl, by decide, by decide⟩
      | nullV => exact ⟨"Invalid price", rfl, by decide, by decide⟩
      | undefinedV => exact ⟨"Invalid price", rfl, by decide, by decide⟩
    · refine ⟨"Invalid price", ?_, by decide, by decide⟩
      simp only [calculateDiscount]
      rw [if_pos hneg]
  · rintro ⟨p, rfl, hp⟩ hnots
    have hnp : ¬ p < 0 := not_lt.mpr hp
    cases code with
    | str s => exact absurd rfl (hnots s)
    | num q =>
      refine ⟨"Invalid code", ?_, by decide, by decide⟩
      simp only [calculateDiscount]
      rw [if_neg hnp]
    | bool b =>
      refine ⟨"Invalid code", ?_, by decide, by decide⟩
      simp only [calculateDiscount]
      rw [if_neg hnp]
    | nullV =>
      refine ⟨"Invalid code", ?_, by decide, by decide⟩
      simp only [calculateDiscount]
      rw [if_neg hnp]
    | undefinedV =>
      refine ⟨"Invalid code", ?_, by decide, by decide⟩
      simp only [calculateDiscount]
      rw [if_neg hnp]

/-- Witness for C4: a string price, a negative price, and a numeric
discount code each produce the specified invalid-input message. -/
theorem calculateDiscount_invalid_inputs_witness :
    (∃ msg, calculateDiscount (JSValue.str "10") (JSValue.str "SAVE10") =
        JSValue.str msg ∧ hasSubstrCI msg "invalid price" = true ∧
        hasSubstrCI msg "invalid" = true) ∧
    (∃ msg, calculateDiscount (JSValue.num (-10)) (JSValue.str "SAVE10") =
        JSValue.str msg ∧ hasSubstrCI msg "invalid price" = true ∧
        hasSubstrCI msg "invalid" = true) ∧
    (∃ msg, calculateDiscount (JSValue.num 10) (JSValue.num 10) =
        JSValue.str msg ∧ hasSubstrCI msg "invalid code" = true ∧
        hasSubstrCI msg "invalid" = true) :=
  ⟨(calculateDiscount_invalid_inputs (JSValue.str "10") (JSValue.str "SAVE10")).1
      (Or.inl fun p h => JSValue.noConfusion h),
   (calculateDiscount_invalid_inputs (JSValue.num (-10)) (JSValue.str "SAVE10")).1
      (Or.inr ⟨-10, rfl, by norm_num⟩),
   (calculateDiscount_invalid_inputs (JSValue.num 10) (JSValue.num 10)).2
      ⟨10, rfl, by norm_num⟩ (fun s h => JSValue.noConfusion h)⟩

/-- C5: for every numeric non-negative price and every string code not
present in the coupon catalog (codes differing only in letter case
included), `calculateDiscount(price, code)` returns the price
unchanged. -/
theorem calculateDiscount_unknown_code (p : ℚ) (hp : 0 ≤ p) (code : String)
    (hcode : ∀ c ∈ getCoupons, c.code ≠ code) :
    calculateDiscount (JSValue.num p) (JSValue.str code) = JSValue.num p := by
  have hnp : ¬ p < 0 := not_lt.mpr hp
  have hfind : getCoupons.find? (fun coupon => coupon.code == code) = none := by
    rw [List.find?_eq_none]
    intro c hc
    simpa using hcode c hc
  simp only [calculateDiscount]
  rw [if_neg hnp, hfind]

/-- Witness for C5: the unknown code 'INVALID' and the lowercase
variant 'save10' of a catalog code both leave the price unchanged. -/
theorem calculateDiscount_unknown_code_witness :
    calculateDiscount (JSValue.num 10) (JSValue.str "INVALID") = JSValue.num 10 ∧
    calculateDiscount (JSValue.num 10) (JSValue.str "save10") = JSValue.num 10 :=
  ⟨calculateDiscount_unknown_code 10 (by norm_num) "INVALID" (by decide),
   calculateDiscount_unknown_code 10 (by norm_num) "save10" (by decide)⟩

/-- Bridge lemma: the Boolean username axis holds exactly when the
input is a string whose length lies in [3,255]. -/
theorem validUsernameAxis_iff (u : JSValue) :
    validUsernameAxis u = true ↔
      ∃ s, u = JSValue.str s ∧ 3 ≤ s.length ∧ s.length ≤ 255 := by
  cases u <;> simp [validUsernameAxis]

/-- Bridge lemma: the Boolean age axis holds exactly when the input is
a number lying in [18,100]. -/
theorem validAgeAxis_iff (a : JSValue) :
    validAgeAxis a = true ↔
      ∃ q : ℚ, a = JSValue.num q ∧ 18 ≤ q ∧ q ≤ 100 := by
  cases a <;> simp [validAgeAxis]

/-- C6: `validateUserInput(username, age)` produces a message matching
`/success/i` exactly when the username is a string with length in
[3,255] and the age is a number in [18,100]; the result contains the
clause "Invalid username" exactly when the username axis fails and the
clause "Invalid age" exactly when the age axis fails; in particular
`validateUserInput('', 0)` matches both `/invalid username/i` and
`/invalid age/i`. -/
theorem validateUserInput_spec (username age : JSValue) :
    (hasSubstrCI (validateUserInput username age) "success" = true ↔
      ((∃ s, username = JSValue.str s ∧ 3 ≤ s.length ∧ s.length ≤ 255) ∧
       (∃ q : ℚ, age = JSValue.num q ∧ 18 ≤ q ∧ q ≤ 100))) ∧
    (hasSubstrCI (validateUserInput username age) "Invalid username" = true ↔
      ¬ (∃ s, username = JSValue.str s ∧ 3 ≤ s.length ∧ s.length ≤ 255)) ∧
    (hasSubstrCI (validateUserInput username age) "Invalid age" = true ↔
      ¬ (∃ q : ℚ, age = JSValue.num q ∧ 18 ≤ q ∧ q ≤ 100)) ∧
    hasSubstrCI (validateUserInput (JSValue.str "") (JSValue.num 0))
      "invalid username" = true ∧
    hasSubstrCI (validateUserInput (JSValue.str "") (JSValue.num 0))
      "invalid age" = true := by
  rw [← validUsernameAxis_iff username, ← validAgeAxis_iff age]
  cases hb : validUsernameAxis username <;> cases hc : validAgeAxis age <;>
    simp only [validateUserInput, hb, hc] <;> decide

/-- Witness for C6: evaluates the theorem at the valid input
('mosh', 42) and reads off the success match. -/
theorem validateUserInput_spec_witness :
    hasSubstrCI (validateUserInput (JSValue.str "mosh") (JSValue.num 42))
      "success" = true :=
  (validateUserInput_spec (JSValue.str "mosh") (JSValue.num 42)).1.mpr
    ⟨⟨"mosh", rfl, by decide, by decide⟩, ⟨42, rfl, by norm_num, by norm_num⟩⟩

/-- C7: `isValidUsername(x)` is true exactly when `x` is a string whose
length is in [5,15] inclusive; every non-string input (null, undefined,
numbers, booleans) yields false. -/
theorem isValidUsername_spec (x : JSValue) :
    (isValidUsername x = true ↔
      ∃ s, x = JSValue.str s ∧ 5 ≤ s.length ∧ s.length ≤ 15) ∧
    isValidUsername JSValue.nullV = false ∧
    isValidUsername JSValue.undefinedV = false ∧
    (∀ q : ℚ, isValidUsername (JSValue.num q) = false) ∧
    (∀ b : Bool, isValidUsername (JSValue.bool b) = false) := by
  refine ⟨?_, rfl, rfl, fun q => rfl, fun b => rfl⟩
  cases x <;> simp [isValidUsername]

/-- Witness for C7: the theorem applied at the 6-character string
'Diakte' yields true. -/
theorem isValidUsername_spec_witness :
    isValidUsername (JSValue.str "Diakte") = true :=
  (isValidUsername_spec (JSValue.str "Diakte")).1.mpr
    ⟨"Diakte", rfl, by decide, by decide⟩

/-- C8: for recognized country codes, `canDrive(age, code)` returns
true exactly when the age meets the country minimum (16 for 'US', 17
for 'UK'; the boundary age is eligible) and false exactly when it is
below; for every unrecognized code it returns an error string matching
`/invalid/i` instead of a boolean. -/
theorem canDrive_spec :
    (∀ age : ℚ, (canDrive age "US" = JSValue.bool true ↔ 16 ≤ age) ∧
                (canDrive age "US" = JSValue.bool false ↔ age < 16)) ∧
    (∀ age : ℚ, (canDrive age "UK" = JSValue.bool true ↔ 17 ≤ age) ∧
                (canDrive age "UK" = JSValue.bool false ↔ age < 17)) ∧
    (∀ (age : ℚ) (c : String), c ≠ "US" → c ≠ "UK" →
      ∃ msg, canDrive age c = JSValue.str msg ∧
        hasSubstrCI msg "invalid" = true) := by
  refine ⟨fun age => ?_, fun age => ?_, fun age c h1 h2 => ?_⟩
  · constructor <;> simp [canDrive, legalDrivingAge, List.lookup, not_le]
  · constructor <;> simp [canDrive, legalDrivingAge, List.lookup, not_le]
  · have h1' : (c == "US") = false := beq_eq_false_iff_ne.mpr h1
    have h2' : (c == "UK") = false := beq_eq_false_iff_ne.mpr h2
    refine ⟨"Invalid country code", ?_, by decide⟩
    simp [canDrive, legalDrivingAge, List.lookup, h1', h2']

/-- Witness for C8: age 16 can drive in 'US' but not in 'UK', and the
unrecognized code 'FR' yields an invalid-message string. -/
theorem canDrive_spec_witness :
    canDrive 16 "US" = JSValue.bool true ∧
    canDrive 16 "UK" = JSValue.bool false ∧
    (∃ msg, canDrive 20 "FR" = JSValue.str msg ∧
      hasSubstrCI msg "invalid" = true) :=
  ⟨(canDrive_spec.1 16).1.mpr (by norm_num),
   (canDrive_spec.2.1 16).2.mpr (by norm_num),
   canDrive_spec.2.2 20 "FR" (by decide) (by decide)⟩

/-- C9: every call to `fetchData()` fails: the operation never
resolves, and the rejection value carries a `reason` field whose text
matches `/fail/i`. -/
theorem fetchData_always_fails :
    (∀ v : List ℚ, fetchData ≠ Except.ok v) ∧
    ∃ e, fetchData = Except.error e ∧ hasSubstrCI e.reason "fail" = true :=
  ⟨fun v h => Except.noConfusion h,
   ⟨{ reason := "Operation failed" }, rfl, by decide⟩⟩

/-- Witness for C9: the theorem applied at the concrete resolved value
`[]` shows `fetchData` does not resolve to it. -/
theorem fetchData_always_fails_witness :
    fetchData ≠ Except.ok ([] : List ℚ) :=
  fetchData_always_fails.1 []

/-- C10: `getDiscount` is a function of the current date alone; it
returns the fraction 0.2 on December 25 and 0 on every other day. -/
theorem getDiscount_spec :
    getDiscount 12 25 = 1/5 ∧
    ∀ month day : Nat, ¬(month = 12 ∧ day = 25) → getDiscount month day = 0 := by
  constructor
  · simp [getDiscount]
  · intro m d h
    simp [getDiscount, h]

/-- Witness for C10: the theorem applied on December 24 gives a zero
discount. -/
theorem getDiscount_spec_witness : getDiscount 12 24 = 0 :=
  getDiscount_spec.2 12 24 (by decide)
